import Mathlib

/-!
Verification development for the `persistent-signals` repository: a shallow
embedding of the atom registry (src/core/atom.ts), the debounce utility
(src/utils/debounce.ts) and the cross-tab storage-event handler
(src/core/storage.ts), together with theorems settling the frozen claims.

Modelling conventions:
* JS runtime values that can appear as a signal value (anything produced by
  `JSON.parse`, plus `undefined` from property access) are modelled by the
  inductive `Js`.
* JS numbers used as versions and timestamps are modelled as `Int`
  (the source only adds, subtracts and compares them).
* `a.localeCompare(b) > 0` is modelled as code-point lexicographic `b < a`
  on Lean strings, following the spec's description of the comparator as
  a deterministic lexicographic string ordering (spec section 4.3 and 9).
* Host effects (the storage cell, timers) are made explicit: calls to
  `storage.setItem` are logged in a `writes` field, and the "a debounced
  write is pending" timer state is the boolean `pending`.
-/

namespace PersistentSignals

/-- JS values reachable in this library: everything `JSON.parse` can return,
plus `undefined`, which property access on a non-object produces. -/
inductive Js where
  | undefVal : Js
  | null : Js
  | bool (b : Bool) : Js
  | num (n : Int) : Js
  | str (s : String) : Js
  | arr (elems : List Js) : Js
  | obj (fields : List (String × Js)) : Js

/-- JS property access `v.k`. On `null` / `undefined` it throws a TypeError
(modelled as `.error ()`); on an object it returns the field or `undefined`;
on the other primitives and arrays it returns `undefined` for the three
property names this library reads (`value`, `version`, `originId`), which is
all the model is used for. -/
def getProp : Js → String → Except Unit Js
  | .null, _ => .error ()
  | .undefVal, _ => .error ()
  | .obj fields, k => .ok ((List.lookup k fields).getD .undefVal)
  | _, _ => .ok .undefVal

/-- JS strict equality `===` as used by the reactive cell to decide whether a
write to `signal.value` notifies subscribers. Primitives compare structurally;
two object/array operands are compared by reference, and at every call site in
this code base the two operands are distinct heap objects (the stored value
versus a freshly `JSON.parse`d one), so the object/array cases are `false`. -/
def jsEq : Js → Js → Bool
  | .undefVal, .undefVal => true
  | .null, .null => true
  | .bool a, .bool b => a == b
  | .num a, .num b => a == b
  | .str a, .str b => a == b
  | _, _ => false

lemma jsEq_eq (a b : Js) (h : jsEq a b = true) : a = b := by
  cases a <;> cases b <;> simp_all [jsEq]

/-- The `AtomState<T>` shape of src/core/atom.ts: a remote persisted state
after it has passed the handler's structural validation (`version` numeric,
`originId` a string). -/
structure AtomStateJs where
  value : Js
  version : Int
  originId : String

/-- One record passed to `storage.setItem` by `writeToStorage`
(`JSON.stringify({value, version, originId})`). -/
structure PersistedRecord where
  value : Js
  version : Int
  originId : Option String

/-- The mutable state of one `AtomRegistryEntry`: the signal's current value,
the private `#version`, `#originId` and `#refCount` fields, whether the
persistence effect and debounced writer are installed (`active`, i.e.
`#disposeEffect`/`#debouncedWrite` are set), whether a debounced write is
currently pending (`pending`, i.e. the debounce timer is armed with a recorded
call), and the log of `setItem` calls issued so far (`writes`, most recent
first). -/
structure EntryM where
  value : Js
  version : Int
  originId : Option String
  refCount : Int
  active : Bool
  pending : Bool
  writes : List PersistedRecord

/-- Model of `a.localeCompare(b) > 0`: `b` strictly precedes `a` in the
code-point lexicographic order. -/
def localeAfter (a b : String) : Bool := decide (b < a)

/-- The `shouldUpdate` decision of `AtomRegistryEntry.syncWith`
(src/core/atom.ts lines 112-123): accept on a strictly newer remote version;
on a version tie accept only when the local `#originId` is truthy (defined and
non-empty) and the remote origin id `localeCompare`s strictly after it;
otherwise ignore. -/
def syncAccepts (localVersion : Int) (localOriginId : Option String)
    (r : AtomStateJs) : Bool :=
  if r.version > localVersion then true
  else if r.version = localVersion then
    match localOriginId with
    | some oid => !(oid == "") && localeAfter r.originId oid
    | none => false
  else false

/-- Assignment `this.signal.value = v`. The reactive cell notifies its
subscribers only when the new value is not `===` the old one; the persistence
effect subscribed by `setupPersistence` reads `signal.value` and invokes the
debounced writer, so when the entry is mounted (`active`) a changed value arms
a pending debounced write. -/
def setSignal (e : EntryM) (v : Js) : EntryM :=
  if jsEq v e.value then e
  else if e.active then { e with value := v, pending := true }
  else { e with value := v }

/-- `AtomRegistryEntry.syncWith(remoteState)` (src/core/atom.ts lines
105-139): when the conflict-resolution decision accepts, overwrite the signal
value (with its subscriber side effects) and then the local `#version`. -/
def syncWithM (e : EntryM) (r : AtomStateJs) : EntryM :=
  if syncAccepts e.version e.originId r then
    { setSignal e r.value with version := r.version }
  else e

/-- The `writeToStorage` closure of `setupPersistence` (src/core/atom.ts lines
155-169): inside a try/catch it first increments `#version`, then serializes
and calls `storage.setItem`. `writeFails` says whether the serialization or
the `setItem` call throws; the catch swallows the exception (logging it), so
the function is total either way and the version increment is never rolled
back. On success the written record is logged. -/
def writeToStorage (e : EntryM) (writeFails : Bool) : EntryM :=
  let e1 := { e with version := e.version + 1 }
  if writeFails then e1
  else { e1 with writes := ⟨e1.value, e1.version, e1.originId⟩ :: e1.writes }

/-- `#debouncedWrite?.flush()`: when a debounced write is pending, invoke
`writeToStorage` now (trailing edge) and clear the timer; otherwise a no-op.
The host storage is assumed healthy on this path (`writeFails := false`);
write failures are analysed separately through `writeToStorage`. -/
def flushWrite (e : EntryM) : EntryM :=
  if e.pending then { writeToStorage e false with pending := false } else e

/-- `setupPersistence` (src/core/atom.ts lines 154-176): installs the
debounced writer and the reactive effect. Creating the effect runs its
callback once immediately, which invokes the debounced writer and arms the
timer, so a pending write exists right after setup. -/
def setupPersistence (e : EntryM) : EntryM :=
  { e with active := true, pending := true }

/-- `cleanupPersistence` (src/core/atom.ts lines 178-183): flush any pending
debounced write, dispose the effect, and drop both handles. -/
def cleanupPersistence (e : EntryM) : EntryM :=
  { flushWrite e with active := false, pending := false }

/-- A reference-count lifecycle call on one entry. -/
inductive LifeOp where
  | mount : LifeOp
  | unmount : LifeOp

/-- `mount`/`unmount` (src/core/atom.ts lines 84-99): adjust `#refCount`; on
the 0 to 1 transition set up persistence, on the 1 to 0 transition clean it
up. The decrement is unguarded, so the count can go negative. -/
def applyOp (e : EntryM) : LifeOp → EntryM
  | .mount =>
    let e1 := { e with refCount := e.refCount + 1 }
    if e1.refCount = 1 then setupPersistence e1 else e1
  | .unmount =>
    let e1 := { e with refCount := e.refCount - 1 }
    if e1.refCount = 0 then cleanupPersistence e1 else e1

/-- Run a finite sequence of lifecycle calls. -/
def runOps (e : EntryM) : List LifeOp → EntryM
  | [] => e
  | op :: ops => runOps (applyOp e op) ops

/-- Net lifecycle count: mounts minus unmounts. -/
def netCount : List LifeOp → Int
  | [] => 0
  | .mount :: ops => 1 + netCount ops
  | .unmount :: ops => -1 + netCount ops

/-- The `AtomConfig` of one entry: its key and default value. -/
structure AtomConfigJs where
  key : String
  defaultValue : Js

/-- The `AtomRegistryEntryOptions` argument of the constructor and of
`acquireEntry`. `overrideValue` is `some` exactly when it is not
`undefined`; `persistent` is its truthiness. -/
structure EntryOptions where
  overrideValue : Option Js
  originId : Option String
  persistent : Bool

/-- The `AtomRegistryEntry` constructor (src/core/atom.ts lines 38-68).
`stored` is what `storage.getItem(key)` returned and `parse` is the host
`JSON.parse` (`.error` when it throws). Priority: an explicit override value;
else, when persistence is requested and a stored string parses, the parsed
`value` property with `parsed.version || 0` (the version read is kept only
when it is a number; property access on a parsed `null` throws and is caught,
falling back to the default value with version 0, exactly like a parse
failure). The entry starts unmounted with no persistence wiring and no
writes. -/
def mkEntry (config : AtomConfigJs) (opts : EntryOptions) (stored : Option String)
    (parse : String → Except Unit Js) : EntryM :=
  let vv : Js × Int :=
    match opts.overrideValue with
    | some v => (v, 0)
    | none =>
      if opts.persistent then
        match stored with
        | none => (config.defaultValue, 0)
        | some s =>
          match parse s with
          | .error _ => (config.defaultValue, 0)
          | .ok js =>
            match getProp js "value" with
            | .error _ => (config.defaultValue, 0)
            | .ok v =>
              match getProp js "version" with
              | .error _ => (config.defaultValue, 0)
              | .ok (.num n) => (v, n)
              | .ok _ => (v, 0)
      else (config.defaultValue, 0)
  { value := vv.1, version := vv.2, originId := opts.originId,
    refCount := 0, active := false, pending := false, writes := [] }

/-- `acquireEntry` (src/core/atom.ts lines 201-235) for one storage adapter's
registry, modelled as an association list keyed by the atom key. An empty key
fails fast (`.error`); an existing registration is returned as is (the
development-mode default-value warning has no state effect); otherwise a new
entry is constructed and registered. -/
def acquireEntry (reg : List (String × EntryM)) (config : AtomConfigJs)
    (opts : EntryOptions) (stored : Option String)
    (parse : String → Except Unit Js) :
    Except Unit (EntryM × List (String × EntryM)) :=
  if config.key = "" then .error ()
  else
    match List.lookup config.key reg with
    | some e => .ok (e, reg)
    | none =>
      let e := mkEntry config opts stored parse
      .ok (e, (config.key, e) :: reg)

/-- The `shouldInvoke` closure of `debounce` (src/utils/debounce.ts lines
101-112). `maxing` is `"maxWait" in options` and `maxWait` the effective
bound computed at line 69; `lastCallTime`/`lastInvokeTime` are the closure's
state variables (`undefined` is `none`, with `lastCallTime ?? 0` for the
subtraction) and `time` the current `Date.now()`. -/
def shouldInvoke (wait : Int) (maxing : Bool) (maxWait : Option Int)
    (lastCallTime : Option Int) (lastInvokeTime : Int) (time : Int) : Bool :=
  let timeSinceLastCall := time - lastCallTime.getD 0
  let timeSinceLastInvoke := time - lastInvokeTime
  lastCallTime.isNone
    || decide (timeSinceLastCall ≥ wait)
    || decide (timeSinceLastCall < 0)
    || (maxing && (match maxWait with
        | some mw => decide (timeSinceLastInvoke ≥ mw)
        | none => false))

/-- The structural validation block of `handleStorageChange` (src/core/
storage.ts step 4), applied to the three property reads of the parsed value:
reject when `value` is `undefined`, `version` is not a number or `originId`
is not a string. -/
def validateRemote (v ver oid : Js) : Option AtomStateJs :=
  match v with
  | .undefVal => none
  | _ =>
    match ver, oid with
    | .num n, .str s => some ⟨v, n, s⟩
    | _, _ => none

/-- Reading and validating the parsed storage-event value
(`remoteState.value === undefined || typeof remoteState.version !== "number"
|| typeof remoteState.originId !== "string"`). The property accesses are
outside the try/catch, so on a parsed `null` the first access throws a
TypeError that escapes the handler (`.error`). -/
def decodeRemote (js : Js) : Except Unit (Option AtomStateJs) :=
  match getProp js "value" with
  | .error e => .error e
  | .ok v =>
    match getProp js "version" with
    | .error e => .error e
    | .ok ver =>
      match getProp js "originId" with
      | .error e => .error e
      | .ok oid => .ok (validateRemote v ver oid)

/-- Replace the entry stored under `k`, the effect of
`entry.syncWith(remoteState)` on the registry map. -/
def updateReg (reg : List (String × EntryM)) (k : String) (e : EntryM) :
    List (String × EntryM) :=
  reg.map (fun p => if p.1 = k then (p.1, e) else p)

/-- `handleStorageChange` (src/core/storage.ts lines 48-87) over the
registry of the shared adapter: ignore events with a falsy key or a null new
value; ignore unregistered keys; parse the new value, ignoring a parse
failure (the catch); read and validate the parsed state, ignoring invalid
structure but letting a property-access TypeError escape (`.error`);
ignore self-echoes (`originId` equal to the local tab id); otherwise apply
the entry's merge. Returns the resulting registry. -/
def handleStorageChange (reg : List (String × EntryM)) (localTabId : String)
    (eventKey : Option String) (eventNewValue : Option String)
    (parse : String → Except Unit Js) :
    Except Unit (List (String × EntryM)) :=
  match eventKey, eventNewValue with
  | some k, some nv =>
    if k = "" then .ok reg
    else
      match List.lookup k reg with
      | none => .ok reg
      | some entry =>
        match parse nv with
        | .error _ => .ok reg
        | .ok js =>
          match decodeRemote js with
          | .error e => .error e
          | .ok none => .ok reg
          | .ok (some st) =>
            if st.originId = localTabId then .ok reg
            else .ok (updateReg reg k (syncWithM entry st))
  | _, _ => .ok reg

/-! ## Shared helper lemmas -/

lemma setSignal_value (e : EntryM) (v : Js) : (setSignal e v).value = v := by
  unfold setSignal
  split
  case isTrue h => exact (jsEq_eq _ _ h).symm
  case isFalse h => split <;> rfl

lemma setSignal_version (e : EntryM) (v : Js) :
    (setSignal e v).version = e.version := by
  unfold setSignal
  split
  · rfl
  · split <;> rfl

lemma setSignal_originId (e : EntryM) (v : Js) :
    (setSignal e v).originId = e.originId := by
  unfold setSignal
  split
  · rfl
  · split <;> rfl

lemma syncWithM_accepted (e : EntryM) (r : AtomStateJs)
    (h : syncAccepts e.version e.originId r = true) :
    (syncWithM e r).value = r.value ∧ (syncWithM e r).version = r.version ∧
    (syncWithM e r).originId = e.originId := by
  unfold syncWithM
  rw [if_pos h]
  exact ⟨setSignal_value e r.value, rfl, setSignal_originId e r.value⟩

lemma syncWithM_ignored (e : EntryM) (r : AtomStateJs)
    (h : syncAccepts e.version e.originId r = false) :
    syncWithM e r = e := by
  unfold syncWithM
  rw [if_neg (by simp [h])]

/-! ## Claim theorems -/

/-- A mounted entry with a flushed (non-pending) debounced writer, about to
receive a remote state with a strictly newer version and a different value. -/
def c1Entry : EntryM :=
  { value := Js.num 0, version := 0, originId := some "a",
    refCount := 1, active := true, pending := false, writes := [] }

/-- The remote state accepted by `c1Entry` in the C1 scenario. -/
def c1Remote : AtomStateJs := { value := Js.num 1, version := 1, originId := "b" }

/-- Claim C1 (code bug evaluation): accepting a remote state via `syncWith`
on a mounted entry DOES schedule a new debounced storage write, because the
persistence effect subscribes to `signal.value` and `syncWith` assigns it.
At the concrete failing input the entry has no pending write before the
acceptance and a pending write after it, while the value and version are
overwritten with the remote's. -/
theorem C1_sync_schedules_write :
    c1Entry.pending = false
    ∧ (syncWithM c1Entry c1Remote).pending = true
    ∧ (syncWithM c1Entry c1Remote).value = c1Remote.value
    ∧ (syncWithM c1Entry c1Remote).version = c1Remote.version :=
  ⟨rfl, rfl, rfl, rfl⟩

/-- An entry whose `#originId` is the empty string: a defined string that is
falsy in JS, so the tie-break guard `this.#originId && ...` skips it. -/
def c2Entry : EntryM :=
  { value := Js.num 0, version := 5, originId := some "",
    refCount := 0, active := false, pending := false, writes := [] }

/-- A remote state with the same version as `c2Entry` whose origin id sorts
strictly after the local empty-string origin id. -/
def c2Remote : AtomStateJs := { value := Js.num 1, version := 5, originId := "b" }

/-- Claim C2 (counterexample): at equal versions with local origin id `""`
and remote origin id `"b"`, the remote origin id sorts strictly after the
local one lexicographically, so the claim demands acceptance — but
`syncWith` leaves the entry unchanged, because the guard
`this.#originId && ...` treats the empty string as falsy. -/
theorem C2_counterexample :
    c2Remote.version = c2Entry.version
    ∧ c2Entry.originId = some ""
    ∧ ("" : String) < c2Remote.originId
    ∧ syncWithM c2Entry c2Remote = c2Entry
    ∧ (syncWithM c2Entry c2Remote).value ≠ c2Remote.value :=
  ⟨rfl, rfl, by rw [String.lt_iff_toList_lt]; decide, rfl,
   by show Js.num 0 ≠ Js.num 1; simp⟩

/-- The version-tie acceptance condition as the amended claim states it: the
local origin id is defined, non-empty, and the remote origin id sorts
strictly after it in the lexicographic string order. -/
def tieAccepts (e : EntryM) (r : AtomStateJs) : Prop :=
  ∃ oid, e.originId = some oid ∧ oid ≠ "" ∧ oid < r.originId

/-- Claim C2 (amended): last-writer-wins as implemented. A strictly newer
remote version is accepted (value and version overwritten with the remote's);
at a version tie the remote is accepted exactly when the local origin id is
defined and non-empty and the remote origin id sorts strictly after it, and
is ignored otherwise (entry unchanged); a strictly older remote version is
ignored (entry unchanged). -/
theorem C2_amended_lww (e : EntryM) (r : AtomStateJs) :
    (e.version < r.version →
      (syncWithM e r).value = r.value ∧ (syncWithM e r).version = r.version)
    ∧ (r.version = e.version → tieAccepts e r →
      (syncWithM e r).value = r.value ∧ (syncWithM e r).version = r.version)
    ∧ (r.version = e.version → ¬ tieAccepts e r → syncWithM e r = e)
    ∧ (r.version < e.version → syncWithM e r = e) := by
  refine ⟨?_, ?_, ?_, ?_⟩
  · intro hlt
    have h : syncAccepts e.version e.originId r = true := by
      unfold syncAccepts
      simp [hlt]
    exact ⟨(syncWithM_accepted e r h).1, (syncWithM_accepted e r h).2.1⟩
  · intro heq htie
    obtain ⟨oid, hoid, hne, hlt⟩ := htie
    have h : syncAccepts e.version e.originId r = true := by
      unfold syncAccepts
      rw [hoid]
      simp [heq, localeAfter, hne, hlt]
    exact ⟨(syncWithM_accepted e r h).1, (syncWithM_accepted e r h).2.1⟩
  · intro heq htie
    refine syncWithM_ignored e r ?_
    unfold syncAccepts
    simp only [heq, lt_irrefl, if_false, if_true, gt_iff_lt, if_pos rfl]
    cases hoid : e.originId with
    | none => rfl
    | some oid =>
      by_cases he : oid = ""
      · simp [he]
      · have hnlt : ¬ oid < r.originId := fun hlt => htie ⟨oid, hoid, he, hlt⟩
        simp [he, localeAfter, hnlt]
  · intro hlt
    refine syncWithM_ignored e r ?_
    unfold syncAccepts
    have h1 : ¬ r.version > e.version := by omega
    have h2 : ¬ r.version = e.version := by omega
    simp [h1, h2]

/-- A concrete tie with both origin ids non-empty, matching the spec's
ordering scenario (`"aaa"` local versus `"bbb"` remote). -/
def c2wEntry : EntryM :=
  { value := Js.num 0, version := 0, originId := some "aaa",
    refCount := 0, active := false, pending := false, writes := [] }

/-- The remote side of the witness scenario for the amended claim C2. -/
def c2wRemote : AtomStateJs := { value := Js.num 7, version := 0, originId := "bbb" }

/-- Witness for the amended claim C2 at the version tie `0 = 0` with origin
ids `"aaa"` (local) and `"bbb"` (remote): the remote is accepted. -/
theorem C2_amended_witness :
    (syncWithM c2wEntry c2wRemote).value = c2wRemote.value
    ∧ (syncWithM c2wEntry c2wRemote).version = c2wRemote.version :=
  (C2_amended_lww c2wEntry c2wRemote).2.1 rfl
    ⟨"aaa", rfl, by decide, by rw [String.lt_iff_toList_lt]; decide⟩

/-- Claim C4: re-delivering an already-applied remote state is idempotent on
the observable local state: the value and version after the second
application of `syncWith` with the same remote state equal those after the
first. -/
theorem C4_sync_idempotent (e : EntryM) (r : AtomStateJs) :
    (syncWithM (syncWithM e r) r).value = (syncWithM e r).value
    ∧ (syncWithM (syncWithM e r) r).version = (syncWithM e r).version := by
  by_cases h1 : syncAccepts e.version e.originId r = true
  · obtain ⟨hv, hver, _⟩ := syncWithM_accepted e r h1
    by_cases h2 : syncAccepts (syncWithM e r).version (syncWithM e r).originId r = true
    · obtain ⟨hv2, hver2, _⟩ := syncWithM_accepted (syncWithM e r) r h2
      exact ⟨by rw [hv2, hv], by rw [hver2, hver]⟩
    · rw [syncWithM_ignored (syncWithM e r) r (Bool.not_eq_true _ ▸ h2)]
      exact ⟨rfl, rfl⟩
  · rw [syncWithM_ignored e r (Bool.not_eq_true _ ▸ h1)]
    rw [syncWithM_ignored e r (Bool.not_eq_true _ ▸ h1)]
    exact ⟨rfl, rfl⟩

/-- Claim C6: on every invocation of the entry's write path the version
increment is applied before the fallible serialization and `setItem`; a
failure is caught, leaves the in-memory value unchanged and the write log
untouched, and the increment stands, so a subsequent successful write emits
a record carrying the strictly higher version (two increments after the
original state). `writeToStorage` is total — the catch swallows the
exception — so no failure propagates out of the write path. -/
theorem C6_write_failure_recovery (e : EntryM) :
    (writeToStorage e true).value = e.value
    ∧ (writeToStorage e false).value = e.value
    ∧ (writeToStorage e true).version = e.version + 1
    ∧ (writeToStorage e false).version = e.version + 1
    ∧ (writeToStorage e true).writes = e.writes
    ∧ (writeToStorage (writeToStorage e true) false).writes
        = ⟨e.value, e.version + 2, e.originId⟩ :: e.writes := by
  refine ⟨rfl, rfl, rfl, rfl, rfl, ?_⟩
  show (⟨e.value, e.version + 1 + 1, e.originId⟩ : PersistedRecord) :: e.writes
      = ⟨e.value, e.version + 2, e.originId⟩ :: e.writes
  have h : e.version + 1 + 1 = e.version + 2 := by omega
  rw [h]

lemma flushWrite_refCount (e : EntryM) : (flushWrite e).refCount = e.refCount := by
  unfold flushWrite writeToStorage
  split <;> rfl

lemma applyOp_mount_refCount (e : EntryM) :
    (applyOp e .mount).refCount = e.refCount + 1 := by
  simp only [applyOp]
  split
  · rfl
  · rfl

lemma applyOp_unmount_refCount (e : EntryM) :
    (applyOp e .unmount).refCount = e.refCount - 1 := by
  simp only [applyOp, cleanupPersistence]
  split
  · exact flushWrite_refCount _
  · rfl

lemma applyOp_active (e : EntryM) (op : LifeOp)
    (h : e.active = true ↔ 0 < e.refCount) :
    (applyOp e op).active = true ↔ 0 < (applyOp e op).refCount := by
  cases op with
  | mount =>
    by_cases hc : e.refCount + 1 = 1
    · have happ : applyOp e .mount
          = setupPersistence { e with refCount := e.refCount + 1 } := by
        simp [applyOp, hc]
      rw [happ]
      show true = true ↔ 0 < e.refCount + 1
      simp
      omega
    · have happ : applyOp e .mount = { e with refCount := e.refCount + 1 } := by
        simp [applyOp, hc]
      rw [happ]
      show e.active = true ↔ 0 < e.refCount + 1
      rw [h]
      omega
  | unmount =>
    by_cases hc : e.refCount - 1 = 0
    · have happ : applyOp e .unmount
          = cleanupPersistence { e with refCount := e.refCount - 1 } := by
        simp [applyOp, hc]
      rw [happ]
      show false = true ↔ 0 < (flushWrite { e with refCount := e.refCount - 1 }).refCount
      rw [flushWrite_refCount]
      show false = true ↔ 0 < e.refCount - 1
      simp
      omega
    · have happ : applyOp e .unmount = { e with refCount := e.refCount - 1 } := by
        simp [applyOp, hc]
      rw [happ]
      show e.active = true ↔ 0 < e.refCount - 1
      rw [h]
      omega

lemma runOps_inv (ops : List LifeOp) (e : EntryM)
    (h : e.active = true ↔ 0 < e.refCount) :
    (runOps e ops).refCount = e.refCount + netCount ops
    ∧ ((runOps e ops).active = true ↔ 0 < (runOps e ops).refCount) := by
  induction ops generalizing e with
  | nil => exact ⟨by simp [runOps, netCount], h⟩
  | cons op ops ih =>
    have h2 := applyOp_active e op h
    obtain ⟨ih1, ih2⟩ := ih (applyOp e op) h2
    refine ⟨?_, ih2⟩
    show (runOps (applyOp e op) ops).refCount = _
    rw [ih1]
    cases op with
    | mount =>
      rw [applyOp_mount_refCount]
      show _ = e.refCount + (1 + netCount ops)
      ring
    | unmount =>
      rw [applyOp_unmount_refCount]
      show _ = e.refCount + (-1 + netCount ops)
      ring

lemma unmount_to_zero (e : EntryM) (h : e.refCount = 1) :
    (applyOp e .unmount).active = false
    ∧ (applyOp e .unmount).pending = false
    ∧ (e.pending = true →
        (applyOp e .unmount).writes
          = ⟨e.value, e.version + 1, e.originId⟩ :: e.writes) := by
  have hz : e.refCount - 1 = 0 := by omega
  have happ : applyOp e .unmount
      = cleanupPersistence { e with refCount := e.refCount - 1 } := by
    simp [applyOp, hz]
  rw [happ]
  refine ⟨rfl, rfl, ?_⟩
  intro hp
  show (flushWrite { e with refCount := e.refCount - 1 }).writes = _
  simp [flushWrite, writeToStorage, hp]

/-- Claim C3: for every finite sequence of `mount`/`unmount` calls starting
from a freshly constructed entry, the persistence effect and debounced
writer are installed if and only if the net call count (mounts minus
unmounts) is positive; and whenever the reference count stands at 1, one
more `unmount` deactivates persistence, leaves no pending debounced write,
and — if a write was pending — first flushes it, emitting the pending
record (current value, incremented version) to storage before the effect is
unsubscribed. -/
theorem C3_lifecycle (ops : List LifeOp) (e0 : EntryM)
    (h1 : e0.refCount = 0) (h2 : e0.active = false) :
    ((runOps e0 ops).active = true ↔ 0 < netCount ops)
    ∧ ((runOps e0 ops).refCount = 1 →
        (applyOp (runOps e0 ops) .unmount).active = false
        ∧ (applyOp (runOps e0 ops) .unmount).pending = false
        ∧ ((runOps e0 ops).pending = true →
            (applyOp (runOps e0 ops) .unmount).writes
              = ⟨(runOps e0 ops).value, (runOps e0 ops).version + 1,
                  (runOps e0 ops).originId⟩ :: (runOps e0 ops).writes)) := by
  have hinv : e0.active = true ↔ 0 < e0.refCount := by
    rw [h1, h2]
    simp
  obtain ⟨hrc, hact⟩ := runOps_inv ops e0 hinv
  constructor
  · rw [hact, hrc, h1]
    omega
  · intro h
    exact unmount_to_zero _ h

/-- A freshly constructed entry for the C3 witness scenario. -/
def c3Init : EntryM :=
  { value := Js.num 0, version := 0, originId := some "a",
    refCount := 0, active := false, pending := false, writes := [] }

/-- Witness for claim C3 at the one-element sequence `[mount]`. -/
theorem C3_witness :
    ((runOps c3Init [LifeOp.mount]).active = true ↔ 0 < netCount [LifeOp.mount])
    ∧ ((runOps c3Init [LifeOp.mount]).refCount = 1 →
        (applyOp (runOps c3Init [LifeOp.mount]) .unmount).active = false
        ∧ (applyOp (runOps c3Init [LifeOp.mount]) .unmount).pending = false
        ∧ ((runOps c3Init [LifeOp.mount]).pending = true →
            (applyOp (runOps c3Init [LifeOp.mount]) .unmount).writes
              = ⟨(runOps c3Init [LifeOp.mount]).value,
                  (runOps c3Init [LifeOp.mount]).version + 1,
                  (runOps c3Init [LifeOp.mount]).originId⟩
                :: (runOps c3Init [LifeOp.mount]).writes)) :=
  C3_lifecycle [LifeOp.mount] c3Init rfl rfl

/-- Claim C8: the "should invoke now" condition of the debounce utility
holds exactly when no prior call was ever recorded, or the elapsed time
since the last call reaches the wait, or that elapsed time is negative
(clock moved backward), or a `maxWait` is configured and the elapsed time
since the last actual invocation reaches it. The hypothesis records the
closure invariant of src/utils/debounce.ts lines 68-69: `maxing` holds
exactly when an effective `maxWait` is defined. -/
theorem C8_should_invoke (wait : Int) (maxing : Bool) (maxWait : Option Int)
    (lastCallTime : Option Int) (lastInvokeTime time : Int)
    (hmax : maxing = maxWait.isSome) :
    shouldInvoke wait maxing maxWait lastCallTime lastInvokeTime time = true
    ↔ (lastCallTime = none
       ∨ (∃ lc, lastCallTime = some lc ∧ wait ≤ time - lc)
       ∨ (∃ lc, lastCallTime = some lc ∧ time - lc < 0)
       ∨ (∃ mw, maxWait = some mw ∧ mw ≤ time - lastInvokeTime)) := by
  subst hmax
  cases lastCallTime with
  | none => simp [shouldInvoke]
  | some lc =>
    cases maxWait with
    | none => simp [shouldInvoke]
    | some mw =>
      simp [shouldInvoke]
      tauto

/-- Witness for claim C8: with no prior recorded call, the condition holds. -/
theorem C8_witness : shouldInvoke 100 true (some 200) none 7 50 = true :=
  (C8_should_invoke 100 true (some 200) none 7 50 rfl).mpr (Or.inl rfl)

/-- Claim C9: an entry constructed without an `originId` option has an
undefined local origin id, so `syncWith` never accepts a remote state whose
version equals the local version: the tie branch requires a truthy local
origin id before comparing, and the entry is left unchanged whatever the
remote origin id is. -/
theorem C9_undefined_origin_ignores_ties (config : AtomConfigJs)
    (opts : EntryOptions) (stored : Option String)
    (parse : String → Except Unit Js) (r : AtomStateJs)
    (hopt : opts.originId = none)
    (hver : r.version = (mkEntry config opts stored parse).version) :
    syncWithM (mkEntry config opts stored parse) r
      = mkEntry config opts stored parse := by
  have ho : (mkEntry config opts stored parse).originId = none := by
    simp [mkEntry, hopt]
  refine syncWithM_ignored _ _ ?_
  unfold syncAccepts
  rw [ho, hver]
  simp

/-- Configuration for the C9 witness entry. -/
def c9Config : AtomConfigJs := { key := "counter", defaultValue := Js.num 0 }

/-- Options without an `originId` for the C9 witness entry. -/
def c9Opts : EntryOptions :=
  { overrideValue := none, originId := none, persistent := true }

/-- A parse function for the C9 witness (never consulted: storage empty). -/
def c9Parse : String → Except Unit Js := fun _ => .error ()

/-- A version-tie remote state for the C9 witness. -/
def c9Remote : AtomStateJs := { value := Js.num 9, version := 0, originId := "zzz" }

/-- Witness for claim C9 at a concrete entry built without `originId` and a
remote state tying its version. -/
theorem C9_witness :
    syncWithM (mkEntry c9Config c9Opts none c9Parse) c9Remote
      = mkEntry c9Config c9Opts none c9Parse :=
  C9_undefined_origin_ignores_ties c9Config c9Opts none c9Parse c9Remote rfl rfl

/-- Claim C10: `acquireEntry` for a key that is already registered returns
the existing entry and leaves the registry unchanged, whatever the options,
stored string and parse behaviour are — so `overrideValue`, `originId` and
`persistent` have no effect and no new entry is constructed. -/
theorem C10_existing_entry (reg : List (String × EntryM))
    (config : AtomConfigJs) (opts : EntryOptions) (stored : Option String)
    (parse : String → Except Unit Js) (e : EntryM)
    (hk : config.key ≠ "")
    (hl : List.lookup config.key reg = some e) :
    acquireEntry reg config opts stored parse = .ok (e, reg) := by
  unfold acquireEntry
  rw [if_neg hk, hl]

/-- The pre-registered entry of the C10 witness. -/
def c10Entry : EntryM :=
  { value := Js.str "v", version := 3, originId := some "t",
    refCount := 2, active := true, pending := false, writes := [] }

/-- The registry of the C10 witness, already holding key `"k"`. -/
def c10Reg : List (String × EntryM) := [("k", c10Entry)]

/-- A second acquisition of key `"k"` with entirely different options. -/
def c10Config : AtomConfigJs := { key := "k", defaultValue := Js.num 0 }

/-- Conflicting options for the C10 witness acquisition. -/
def c10Opts : EntryOptions :=
  { overrideValue := some (Js.num 42), originId := some "other",
    persistent := false }

/-- A parse function for the C10 witness. -/
def c10Parse : String → Except Unit Js := fun _ => .ok Js.null

/-- Witness for claim C10: re-acquiring `"k"` with different options returns
the registered entry and the unchanged registry. -/
theorem C10_witness :
    acquireEntry c10Reg c10Config c10Opts (some "junk") c10Parse
      = .ok (c10Entry, c10Reg) :=
  C10_existing_entry c10Reg c10Config c10Opts (some "junk") c10Parse c10Entry
    (by decide) rfl

lemma validateRemote_originId (v ver oid : Js) (st : AtomStateJs)
    (h : validateRemote v ver oid = some st) : oid = Js.str st.originId := by
  cases v <;> cases ver <;> cases oid <;>
    simp [validateRemote] at h <;> simp [← h]

/-- Claim C5: a storage change event whose parsed state carries an
`originId` equal to the local tab id is always dropped before the entry's
merge runs: the handler returns with every entry unchanged, whatever the
event's version is. (Events that additionally fail structural validation
are also dropped earlier, likewise leaving the registry unchanged.) -/
theorem C5_self_echo (reg : List (String × EntryM)) (tabId k nv : String)
    (parse : String → Except Unit Js) (js : Js)
    (hp : parse nv = .ok js)
    (ho : getProp js "originId" = .ok (.str tabId)) :
    handleStorageChange reg tabId (some k) (some nv) parse = .ok reg := by
  have hobj : ∃ fields, js = Js.obj fields := by
    cases js <;> first
      | exact ⟨_, rfl⟩
      | simp [getProp] at ho
  obtain ⟨fields, rfl⟩ := hobj
  have ho2 : (List.lookup "originId" fields).getD .undefVal = Js.str tabId := by
    simpa [getProp] using ho
  simp only [handleStorageChange]
  by_cases hk : k = ""
  · rw [if_pos hk]
  · rw [if_neg hk]
    cases hl : List.lookup k reg with
    | none => rfl
    | some entry =>
      rw [hp]
      cases hv : validateRemote ((List.lookup "value" fields).getD .undefVal)
          ((List.lookup "version" fields).getD .undefVal)
          ((List.lookup "originId" fields).getD .undefVal) with
      | none => simp [decodeRemote, getProp, hv]
      | some st =>
        have hoid : (List.lookup "originId" fields).getD .undefVal
            = Js.str st.originId := validateRemote_originId _ _ _ _ hv
        have hst : st.originId = tabId := by
          rw [hoid] at ho2
          exact (Js.str.injEq _ _).mp ho2
        simp [decodeRemote, getProp, hv, hst]

/-- A registered entry for the C5 witness. -/
def c5Entry : EntryM :=
  { value := Js.num 3, version := 4, originId := some "me",
    refCount := 1, active := true, pending := false, writes := [] }

/-- The registry for the C5 witness. -/
def c5Reg : List (String × EntryM) := [("k", c5Entry)]

/-- A parse function for the C5 witness: the event value parses to a valid
state stamped with the local tab id and a much newer version. -/
def c5Parse : String → Except Unit Js := fun _ =>
  .ok (Js.obj [("value", Js.num 99), ("version", Js.num 100),
               ("originId", Js.str "me")])

/-- Witness for claim C5: an echoed event with version 100 against local
version 4 is still ignored because its origin id is the local tab id. -/
theorem C5_witness :
    handleStorageChange c5Reg "me" (some "k") (some "payload") c5Parse
      = .ok c5Reg :=
  C5_self_echo c5Reg "me" "k" "payload" c5Parse
    (Js.obj [("value", Js.num 99), ("version", Js.num 100),
             ("originId", Js.str "me")]) rfl rfl

/-- A registered entry for the C7 failing input. -/
def c7Entry : EntryM :=
  { value := Js.num 0, version := 0, originId := some "a",
    refCount := 1, active := true, pending := false, writes := [] }

/-- The registry for the C7 failing input. -/
def c7Reg : List (String × EntryM) := [("k", c7Entry)]

/-- The host `JSON.parse` on the C7 failing input: the string `"null"` is
valid JSON and parses to `null`; anything else is irrelevant here. -/
def c7Parse : String → Except Unit Js := fun s =>
  if s = "null" then .ok Js.null else .error ()

/-- Claim C7 (code bug evaluation): a storage event for a registered key
whose new value is the string `"null"` parses successfully, and then the
validation's property access `remoteState.value` on `null` throws a
TypeError that escapes the handler (`.error`), contradicting the claim that
the handler never throws past its boundary. -/
theorem C7_null_value_throws :
    c7Parse "null" = .ok Js.null
    ∧ handleStorageChange c7Reg "tab" (some "k") (some "null") c7Parse
        = .error () :=
  ⟨rfl, rfl⟩

end PersistentSignals
